import Mathlib

/-!
Verification of the task-dispatch core of the agent framework
(`src/shared/base_agent.py`).

Python strings are modelled as `List Char` (`Str`).  The external
collaborators of the core are modelled as oracles supplied to the entry
points:

* the subprocess launcher (`subprocess.run`) is an oracle
  `exec : List Str → ProcOutcome` mapping the exact argument vector the
  code builds to the outcome of the launched process (completion with
  exit code / stdout / stderr, a `subprocess.TimeoutExpired`, or any
  other launch exception);
* the standard-library JSON decoder (`json.loads`) is an oracle
  `parse : Str → Option PyJson` (`none` models `json.JSONDecodeError`);
* `uuid.uuid4()` is modelled by passing the generated session id as an
  argument, and `datetime.now()` by passing a `PyDateTime` value;
* the notifier only raises when it formats a non-string `output_text`
  with a slice (`output_text[:100]`); this is the only effect of
  notification that is observable in the claims, so notifications are
  otherwise not tracked.

Python's dynamic typing is kept: the parsed `result` field of the JSON
envelope can be any JSON value, and the operations the code applies to
it (`in`, `.rfind`, slicing) raise `TypeError` / `AttributeError`
exactly where CPython would.  Exceptions are values of `PyExn`; the
`try`/`except` structure of `run_task` / `resume_task` is the explicit
handler at the end of those definitions.
-/

namespace EntityAgents

/-- Python strings, modelled as lists of characters. -/
abbrev Str := List Char

/-- The apostrophe character (used inside Python error-message texts). -/
def SQ : Char := Char.ofNat 39

/-- Python `str.strip()` whitespace set: space, tab, newline, carriage
return, vertical tab, form feed. -/
def pyIsSpace (c : Char) : Bool :=
  c == ' ' || c == '\t' || c == '\n' || c == '\r' || c == '\x0b' || c == '\x0c'

/-- Python `str.strip()`: remove leading and trailing whitespace. -/
def pyStrip (s : Str) : Str :=
  ((s.dropWhile pyIsSpace).reverse.dropWhile pyIsSpace).reverse

/-- Python `str.lower()` (ASCII case mapping suffices here). -/
def pyLower (s : Str) : Str := s.map Char.toLower

/-- Does `pat` occur in `s` starting at index `i`?  (Substring test used
to model Python's `in` and `str.rfind`.) -/
def matchesAt (s pat : Str) (i : Nat) : Bool :=
  (s.drop i).take pat.length == pat

/-- All indices at which `pat` occurs in `s`, in increasing order. -/
def occList (s pat : Str) : List Nat :=
  (List.range (s.length + 1)).filter (fun i => matchesAt s pat i)

/-- Python `pat in s` (substring containment). -/
def containsSub (s pat : Str) : Bool := !(occList s pat).isEmpty

/-- Python `s.rfind(pat)`: index of the last occurrence, `-1` if absent. -/
def pyRfind (s pat : Str) : Int :=
  match (occList s pat).getLast? with
  | some i => (i : Int)
  | none => -1

/-- The sentinel marker `BLOCKED_MARKER` from `base_agent.py`. -/
def BLOCKED_MARKER : Str := "AGENT_BLOCKED:".data

/-- The fixed block-detection clause `BLOCKED_INSTRUCTION` appended to the
system prompt (the Python f-string with the marker substituted). -/
def BLOCKED_INSTRUCTION : Str :=
  "\n\nIMPORTANT: If you cannot complete this task because you need ".data ++
  "information, credentials, a decision, or clarification from the team, ".data ++
  "do NOT guess or fail silently. Instead, end your response with the ".data ++
  "exact marker ".data ++ [SQ] ++ BLOCKED_MARKER ++ [SQ] ++
  " followed by your specific question. ".data ++
  "Example: ".data ++ [SQ] ++ BLOCKED_MARKER ++
  " Which database should I use — Qdrant on ".data ++
  "port 6333 or PostgreSQL on 5432?".data ++ [SQ]

/-- Lines 221-222 of `base_agent.py`: extract the blocker question,
`output_text[marker_pos + len(BLOCKED_MARKER):].strip()` where
`marker_pos = output_text.rfind(BLOCKED_MARKER)`. -/
def blockQuestion (s : Str) : Str :=
  pyStrip (s.drop (pyRfind s BLOCKED_MARKER + (BLOCKED_MARKER.length : Int)).toNat)

/-- Lines 216-222 of `base_agent.py`, as a function of the (string)
output: the blocked flag and the question extracted after the last
occurrence of the marker. -/
def classifyBlocked (s : Str) : Bool × Str :=
  if containsSub s BLOCKED_MARKER then (true, blockQuestion s) else (false, [])

/-- JSON values, as produced by `json.loads`.  (Floats are not needed by
any claim and are omitted from the model.) -/
inductive PyJson where
  | obj : List (Str × PyJson) → PyJson
  | arr : List PyJson → PyJson
  | str : Str → PyJson
  | num : Int → PyJson
  | bool : Bool → PyJson
  | null : PyJson

/-- Python type name of a JSON value, as it appears in CPython error
messages. -/
def pyTypeName : PyJson → Str
  | .obj _ => "dict".data
  | .arr _ => "list".data
  | .str _ => "str".data
  | .num _ => "int".data
  | .bool _ => "bool".data
  | .null => "NoneType".data

/-- The dynamic value of the Python variable `output_text`: either a
string, or (via the `result` field of the JSON envelope) some other JSON
value. -/
inductive StrOrVal where
  | str : Str → StrOrVal
  | val : PyJson → StrOrVal

/-- Python `dict.get` lookup on the parsed JSON object. -/
def lookupField : List (Str × PyJson) → Str → Option PyJson
  | [], _ => none
  | (k, v) :: rest, key => if k == key then some v else lookupField rest key

/-- Message of `AttributeError: '<ty>' object has no attribute 'get'`. -/
def attrGetMsg (ty : Str) : Str :=
  [SQ] ++ ty ++ [SQ] ++ " object has no attribute ".data ++ [SQ] ++ "get".data ++ [SQ]

/-- Message of `AttributeError: '<ty>' object has no attribute 'rfind'`. -/
def attrRfindMsg (ty : Str) : Str :=
  [SQ] ++ ty ++ [SQ] ++ " object has no attribute ".data ++ [SQ] ++ "rfind".data ++ [SQ]

/-- Message of `TypeError: argument of type '<ty>' is not iterable`. -/
def typeErrIterMsg (ty : Str) : Str :=
  "argument of type ".data ++ [SQ] ++ ty ++ [SQ] ++ " is not iterable".data

/-- Message of `TypeError: '<ty>' object is not subscriptable`. -/
def notSubscriptableMsg (ty : Str) : Str :=
  [SQ] ++ ty ++ [SQ] ++ " object is not subscriptable".data

/-- Message of `TypeError: unhashable type: 'slice'`. -/
def sliceUnhashableMsg : Str :=
  "unhashable type: ".data ++ [SQ] ++ "slice".data ++ [SQ]

/-- The key `"result"` of the structured-output envelope. -/
def resultKey : Str := "result".data

/-- Lines 201-208 of `base_agent.py` (and 318-325 in `resume_task`):
`output_text = ""`; if stdout is non-empty, `json.loads` it and take
`json_out.get("result", result.stdout)`, falling back to raw stdout on
`json.JSONDecodeError`.  `json.loads` succeeding with a non-`dict` value
makes `.get` raise `AttributeError`, which is *not* caught here (only by
the outer generic handler). -/
def parseStep (parse : Str → Option PyJson) (stdout : Str) : Except Str StrOrVal :=
  if stdout = [] then .ok (.str [])
  else
    match parse stdout with
    | none => .ok (.str stdout)
    | some (.obj fields) =>
      match lookupField fields resultKey with
      | some (.str s) => .ok (.str s)
      | some v => .ok (.val v)
      | none => .ok (.str stdout)
    | some v => .error (attrGetMsg (pyTypeName v))

/-- Python equality of a JSON value with a string. -/
def pyEqStr (v : PyJson) (s : Str) : Bool :=
  match v with
  | .str t => t == s
  | _ => false

/-- Lines 218-222 of `base_agent.py` on a dynamic `output_text`:
`BLOCKED_MARKER in output_text` followed, when true, by
`output_text.rfind(...)` and the strip.  On a `dict`, `in` tests the
keys; on a `list`, it tests the elements; on `int`/`bool`/`None` it
raises `TypeError`; `.rfind` on a non-string raises `AttributeError`. -/
def inCheck : StrOrVal → Except Str (Bool × Str)
  | .str s => .ok (classifyBlocked s)
  | .val (.str s) => .ok (classifyBlocked s)
  | .val (.obj fields) =>
    if fields.any (fun kv => kv.1 == BLOCKED_MARKER) then
      .error (attrRfindMsg "dict".data)
    else .ok (false, [])
  | .val (.arr xs) =>
    if xs.any (fun v => pyEqStr v BLOCKED_MARKER) then
      .error (attrRfindMsg "list".data)
    else .ok (false, [])
  | .val v => .error (typeErrIterMsg (pyTypeName v))

/-- The f-string `f"Task failed: {output_text[:100]}"` (line 244 /
line 359): slicing a non-string raises except on a `list`/`str`. -/
def failNotifySlice : StrOrVal → Except Str Unit
  | .str _ => .ok ()
  | .val (.str _) => .ok ()
  | .val (.arr _) => .ok ()
  | .val (.obj _) => .error sliceUnhashableMsg
  | .val v => .error (notSubscriptableMsg (pyTypeName v))

/-- Python `result.stderr or output_text` (line 211 / line 328). -/
def pyOrStr (stderr : Str) (v : StrOrVal) : StrOrVal :=
  if stderr = [] then v else .str stderr

/-- Outcome of one `subprocess.run` call, from the caller's point of
view: completion, `subprocess.TimeoutExpired`, or any other exception
raised while launching/running (modelled by its message). -/
inductive ProcOutcome where
  | completed : Int → Str → Str → ProcOutcome
  | timeoutExpired : ProcOutcome
  | launchError : Str → ProcOutcome

/-- Python exceptions escaping the `try` body of `run_task` /
`resume_task`.  All of them are `Exception` subclasses;
`subprocess.TimeoutExpired` is distinguished because the code has a
dedicated handler for it. -/
inductive PyExn where
  | timeoutExpired : PyExn
  | exc : Str → PyExn

/-- The `TaskResult` dataclass.  `output` is dynamically typed in Python
(the dataclass does not enforce `str`), hence `StrOrVal`. -/
structure TaskResult where
  success : Bool
  output : StrOrVal
  files_changed : List Str
  commit_hash : Option Str := none
  needs_approval : Bool := false
  approval_prompt : Str := []
  session_id : Option Str := none
  blocked : Bool := false
  blocker_question : Str := []

/-- The `TaskResult` built by the `subprocess.TimeoutExpired` handler
(lines 248-253 / 363-368). -/
def timeoutResult (sid : Str) : TaskResult :=
  { success := false, output := .str "Task timed out".data,
    files_changed := [], session_id := some sid }

/-- The `TaskResult` built by the generic `except Exception` handler
(lines 254-259 / 369-374), with `output = str(e)`. -/
def excResult (msg : Str) (sid : Str) : TaskResult :=
  { success := false, output := .str msg,
    files_changed := [], session_id := some sid }

/-- Lines 210-237 (and 327-352): after the output has been extracted,
branch on the exit code, run the blocked check when the exit was clean,
construct the `TaskResult`, append it to the history, and emit the
terminal notification (whose f-string can raise on a non-string
output).  Returns the new history and either the result or the
exception escaping the `try` body. -/
def completeStep (rc : Int) (ot : StrOrVal) (sid : Str) (hist : List TaskResult) :
    List TaskResult × Except PyExn TaskResult :=
  if rc == 0 then
    match inCheck ot with
    | .error m => (hist, .error (.exc m))
    | .ok (blocked, q) =>
      let tr : TaskResult :=
        { success := (rc == 0) && !blocked, output := ot, files_changed := [],
          session_id := some sid, blocked := blocked, blocker_question := q }
      (hist ++ [tr], .ok tr)
  else
    let tr : TaskResult :=
      { success := false, output := ot, files_changed := [],
        session_id := some sid, blocked := false, blocker_question := [] }
    match failNotifySlice ot with
    | .error m => (hist ++ [tr], .error (.exc m))
    | .ok _ => (hist ++ [tr], .ok tr)

/-- The shared body of the `try` block of `run_task` and `resume_task`
(they are line-for-line identical in the source apart from notification
texts): run the subprocess, extract the output, classify, record.  The
subprocess outcome `env` is the oracle's answer for the command the
caller built. -/
def taskCore (parse : Str → Option PyJson) (env : ProcOutcome) (sid : Str)
    (hist : List TaskResult) : List TaskResult × Except PyExn TaskResult :=
  match env with
  | .timeoutExpired => (hist, .error .timeoutExpired)
  | .launchError m => (hist, .error (.exc m))
  | .completed rc stdout stderr =>
    match parseStep parse stdout with
    | .error m => (hist, .error (.exc m))
    | .ok ot0 => completeStep rc (if rc ≠ 0 then pyOrStr stderr ot0 else ot0) sid hist

/-- The agent configuration fields used by the dispatch core. -/
structure AgentConfig where
  name : Str
  system_prompt : Str
  project_root : Str

/-- The argument vector built by `run_task` (lines 184-192), with the
block-detection clause already appended to the system prompt
(line 178). -/
def dispatchCmd (cfg : AgentConfig) (flags : List Str) (sid prompt : Str) : List Str :=
  ["claude".data, "--print".data, "--session-id".data, sid,
   "--output-format".data, "json".data, "--system-prompt".data,
   cfg.system_prompt ++ BLOCKED_INSTRUCTION] ++ flags ++ [prompt]

/-- The argument vector built by `resume_task` (lines 302-309). -/
def resumeCmd (flags : List Str) (sid answer : Str) : List Str :=
  ["claude".data, "--print".data, "--resume".data, sid,
   "--output-format".data, "json".data] ++ flags ++ [answer]

/-- The `except subprocess.TimeoutExpired` / `except Exception` handlers
shared (textually duplicated) by `run_task` (lines 248-259) and
`resume_task` (lines 363-374): convert an exception escaping the `try`
body into a returned failure `TaskResult`; both handlers return without
appending to the history. -/
def tryExceptWrapper (sid : Str) :
    List TaskResult × Except PyExn TaskResult →
    List TaskResult × Except PyExn TaskResult
  | (h, .ok tr) => (h, .ok tr)
  | (h, .error .timeoutExpired) => (h, .ok (timeoutResult sid))
  | (h, .error (.exc m)) => (h, .ok (excResult m sid))

/-- `BaseAgent.run_task` (lines 168-259).  `sid` is the fresh
`uuid.uuid4()` of this call, `flags` the outcome of
`_get_permission_flags` (a total function, see below), `exec` the
subprocess oracle and `parse` the JSON-decoder oracle.  Returns the new
`task_history` and the call's outcome: `.ok` a `TaskResult` when the
call returns normally, `.error` if an exception were to escape. -/
def run_task (cfg : AgentConfig) (flags : List Str) (exec : List Str → ProcOutcome)
    (parse : Str → Option PyJson) (sid prompt : Str) (hist : List TaskResult) :
    List TaskResult × Except PyExn TaskResult :=
  tryExceptWrapper sid (taskCore parse (exec (dispatchCmd cfg flags sid prompt)) sid hist)

/-- `BaseAgent.resume_task` (lines 289-374): same contract as
`run_task`, but the session id is the one passed by the caller and the
command has no `--system-prompt` argument. -/
def resume_task (flags : List Str) (exec : List Str → ProcOutcome)
    (parse : Str → Option PyJson) (session_id answer : Str) (hist : List TaskResult) :
    List TaskResult × Except PyExn TaskResult :=
  tryExceptWrapper session_id
    (taskCore parse (exec (resumeCmd flags session_id answer)) session_id hist)

/-- The optional richer policy module `mcp_entity_server.permissions`
(external to this repository), at its interface boundary: two profile
constructors and the flag translator.  `P` is the opaque profile type. -/
structure PermMod (P : Type) where
  get_supervisor_profile : Option Str → P
  get_worker_profile : Option Str → P
  build_cli_flags : P → List Str

/-- `BaseAgent._get_permission_flags` (lines 145-166).  `mod` is `some`
the imported module when the import succeeds and `none` on
`ImportError`; `pathName` models `Path(root).expanduser().resolve().name`. -/
def _get_permission_flags {P : Type} (mod : Option (PermMod P))
    (pathName : Str → Str) (cfg : AgentConfig) : List Str :=
  match mod with
  | some m =>
    let is_supervisor := pyLower cfg.name == "shelly".data
    let project : Option Str :=
      if cfg.project_root ≠ ".".data then some (pathName cfg.project_root) else none
    let profile := if is_supervisor then m.get_supervisor_profile project
                   else m.get_worker_profile project
    m.build_cli_flags profile
  | none => ["--permission-mode".data, "acceptEdits".data]

/-- The `datetime.datetime` values used by `request_approval`: the
`strftime("%Y%m%d_%H%M%S")` rendering and the `isoformat()` rendering of
one `datetime.now()` call. -/
structure PyDateTime where
  strftimeTag : Str
  isoformat : Str

/-- The `ApprovalRequest` dataclass. -/
structure ApprovalRequest where
  task_id : Str
  description : Str
  details : Str
  options : List Str
  created_at : PyDateTime

/-- One record of the serialized `pending_approvals.json` file
(lines 128-137): the five fields, with `created_at` rendered by
`isoformat()`. -/
structure ApprovalRecord where
  task_id : Str
  description : Str
  details : Str
  options : List Str
  created_at : Str

/-- The dictionary written for one request (lines 129-135). -/
def approvalRecordOf (a : ApprovalRequest) : ApprovalRecord :=
  { task_id := a.task_id, description := a.description, details := a.details,
    options := a.options, created_at := a.created_at.isoformat }

/-- `BaseAgent.request_approval` (lines 106-143): default the options,
build the request, append it to the in-memory pending list, and rewrite
the whole approvals file from the new list.  Returns the request, the
new pending list, and the file content written. -/
def request_approval (pending : List ApprovalRequest) (now : PyDateTime)
    (description details : Str) (options : Option (List Str)) :
    ApprovalRequest × List ApprovalRequest × List ApprovalRecord :=
  let opts := match options with
    | none => ["Approve".data, "Reject".data, "Modify".data]
    | some o => o
  let request : ApprovalRequest :=
    { task_id := "approval_".data ++ now.strftimeTag, description := description,
      details := details, options := opts, created_at := now }
  let pending2 := pending ++ [request]
  (request, pending2, pending2.map approvalRecordOf)

/-- The arguments of one `request_approval` call. -/
structure ApprovalCall where
  now : PyDateTime
  description : Str
  details : Str
  options : Option (List Str)

/-- The request that `request_approval` creates for a given call. -/
def mkApproval (c : ApprovalCall) : ApprovalRequest :=
  { task_id := "approval_".data ++ c.now.strftimeTag, description := c.description,
    details := c.details,
    options := match c.options with
      | none => ["Approve".data, "Reject".data, "Modify".data]
      | some o => o,
    created_at := c.now }

/-- Run a sequence of `request_approval` calls on one agent instance,
threading the pending list and tracking the last file write (`none`
before the first call). -/
def runApprovalsAux (pending : List ApprovalRequest)
    (file : Option (List ApprovalRecord)) :
    List ApprovalCall → List ApprovalRequest × Option (List ApprovalRecord)
  | [] => (pending, file)
  | c :: rest =>
    let r := request_approval pending c.now c.description c.details c.options
    runApprovalsAux r.2.1 (some r.2.2) rest

/-- A fresh agent instance starts with an empty pending list and no
approvals file written (`__init__`, line 90). -/
def runApprovals (calls : List ApprovalCall) :
    List ApprovalRequest × Option (List ApprovalRecord) :=
  runApprovalsAux [] none calls

/-! ### Support lemmas for the sentinel classification -/

/-- In a `<`-sorted list the last element is the maximum. -/
lemma pairwise_lt_getLast_le :
    ∀ (l : List Nat), l.Pairwise (· < ·) → ∀ m, l.getLast? = some m → ∀ x ∈ l, x ≤ m := by
  intro l
  induction l with
  | nil => intro _ m hm; simp at hm
  | cons a t ih =>
    intro hp m hm x hx
    cases t with
    | nil =>
      simp at hm hx
      omega
    | cons b u =>
      have hm' : (b :: u).getLast? = some m := by
        simpa [List.getLast?] using hm
      have hp' : (b :: u).Pairwise (· < ·) := hp.of_cons
      rcases List.mem_cons.mp hx with rfl | hx'
      · have hmem : m ∈ b :: u := List.mem_of_mem_getLast? hm'
        have := (List.pairwise_cons.mp hp).1 m hmem
        omega
      · exact ih hp' m hm' x hx'

/-- Occurrence lists are sorted strictly ascending. -/
lemma occList_pairwise (s pat : Str) : (occList s pat).Pairwise (· < ·) :=
  List.Pairwise.filter _ (List.pairwise_lt_range _)

/-- The marker occurs at position `a.length` of `a ++ pat ++ b`. -/
lemma matchesAt_append (a pat b : Str) :
    matchesAt (a ++ pat ++ b) pat a.length = true := by
  unfold matchesAt
  have h1 : (a ++ pat ++ b).drop a.length = pat ++ b := by
    rw [List.append_assoc]
    exact List.drop_left a (pat ++ b)
  rw [h1, List.take_left]
  exact beq_self_eq_true pat

/-- Hence `a.length` is in the occurrence list of `a ++ pat ++ b`. -/
lemma mem_occList_append (a pat b : Str) :
    a.length ∈ occList (a ++ pat ++ b) pat := by
  unfold occList
  refine List.mem_filter.mpr ⟨List.mem_range.mpr ?_, matchesAt_append a pat b⟩
  simp [List.length_append]
  omega

/-- If `i` occurs and dominates every occurrence, it is the last one. -/
lemma occList_getLast_eq (s pat : Str) (i : Nat) (hi : i ∈ occList s pat)
    (hmax : ∀ j ∈ occList s pat, j ≤ i) : (occList s pat).getLast? = some i := by
  have hne : occList s pat ≠ [] := by
    intro h; rw [h] at hi; simp at hi
  obtain ⟨m, hm⟩ := Option.ne_none_iff_exists'.mp (mt List.getLast?_eq_none_iff.mp hne)
  have hmmem : m ∈ occList s pat := List.mem_of_mem_getLast? hm
  have h1 : m ≤ i := hmax m hmmem
  have h2 : i ≤ m := pairwise_lt_getLast_le _ (occList_pairwise s pat) m hm i hi
  rw [hm]
  congr 1
  omega

/-- Classification of a string whose *last* marker occurrence is at
`a.length`: blocked, and the question is the trimmed text after it. -/
lemma classify_last_occ (a b : Str)
    (hall : ∀ j ∈ occList (a ++ BLOCKED_MARKER ++ b) BLOCKED_MARKER, j ≤ a.length) :
    classifyBlocked (a ++ BLOCKED_MARKER ++ b) = (true, pyStrip b) := by
  have hmem : a.length ∈ occList (a ++ BLOCKED_MARKER ++ b) BLOCKED_MARKER :=
    mem_occList_append a BLOCKED_MARKER b
  have hlast : (occList (a ++ BLOCKED_MARKER ++ b) BLOCKED_MARKER).getLast? = some a.length :=
    occList_getLast_eq _ _ _ hmem hall
  have hcont : containsSub (a ++ BLOCKED_MARKER ++ b) BLOCKED_MARKER = true := by
    unfold containsSub
    cases h : occList (a ++ BLOCKED_MARKER ++ b) BLOCKED_MARKER with
    | nil => rw [h] at hmem; simp at hmem
    | cons x xs => simp
  have hrf : pyRfind (a ++ BLOCKED_MARKER ++ b) BLOCKED_MARKER = (a.length : Int) := by
    unfold pyRfind; rw [hlast]
  unfold classifyBlocked
  rw [hcont, if_pos rfl]
  unfold blockQuestion
  rw [hrf]
  have htn : ((a.length : Int) + (BLOCKED_MARKER.length : Int)).toNat
      = a.length + BLOCKED_MARKER.length := by omega
  rw [htn]
  have hdrop : (a ++ BLOCKED_MARKER ++ b).drop (a.length + BLOCKED_MARKER.length) = b := by
    have hlen : a.length + BLOCKED_MARKER.length = (a ++ BLOCKED_MARKER).length := by
      simp [List.length_append]
    rw [hlen]
    exact List.drop_left (a ++ BLOCKED_MARKER) b
  rw [hdrop]

/-- C2: for every output string, the block classification finds the
marker iff it is contained; when a decomposition around the *last*
occurrence is given, the question is the trimmed text after that
occurrence; without the marker the result is `(false, "")`. -/
theorem classify_sentinel_spec (s : Str) :
    (containsSub s BLOCKED_MARKER = false → classifyBlocked s = (false, [])) ∧
    ((classifyBlocked s).1 = containsSub s BLOCKED_MARKER) ∧
    (∀ a b, s = a ++ BLOCKED_MARKER ++ b →
      (∀ j ∈ occList s BLOCKED_MARKER, j ≤ a.length) →
      classifyBlocked s = (true, pyStrip b)) := by
  refine ⟨?_, ?_, ?_⟩
  · intro h
    unfold classifyBlocked
    rw [h]
    simp
  · unfold classifyBlocked
    by_cases h : containsSub s BLOCKED_MARKER = true
    · rw [h, if_pos rfl]
    · have h' : containsSub s BLOCKED_MARKER = false := by
        simpa using h
      rw [h']
      simp
  · intro a b hs hall
    subst hs
    exact classify_last_occ a b hall

/-- Example string with two marker occurrences, used by the witness. -/
def aEx : Str := "xAGENT_BLOCKED: q1 ".data

/-- Trailing text (with surrounding blanks) after the second marker. -/
def bEx : Str := "  ans ".data

/-- The two-marker example output. -/
def sEx : Str := aEx ++ BLOCKED_MARKER ++ bEx

set_option maxRecDepth 8192 in
/-- Witness for C2: on the two-marker example the classification
extracts the trimmed text after the second occurrence, and a marker-free
string classifies as not blocked. -/
theorem classify_sentinel_spec_witness :
    classifyBlocked sEx = (true, "ans".data) ∧
    classifyBlocked "hello".data = (false, []) := by
  constructor
  · have h := (classify_sentinel_spec sEx).2.2 aEx bEx rfl (by decide)
    rw [h]
    rfl
  · exact (classify_sentinel_spec "hello".data).1 (by decide)

/-! ### Support lemmas for the dispatch/resume core -/

/-- Decomposition of a normal (non-raising) exit of `completeStep`: the
returned result is the appended one, carries the session id and the
computed output, its `success` is `exit_clean && not blocked`, and on a
non-clean exit the blocked fields are clear. -/
lemma completeStep_ok {rc : Int} {ot : StrOrVal} {sid : Str}
    {hist h : List TaskResult} {tr : TaskResult}
    (hc : completeStep rc ot sid hist = (h, Except.ok tr)) :
    h = hist ++ [tr] ∧ tr.session_id = some sid ∧ tr.output = ot ∧
    tr.success = ((rc == 0) && !tr.blocked) ∧
    ((rc == 0) = false → tr.blocked = false ∧ tr.blocker_question = []) := by
  unfold completeStep at hc
  by_cases hrc : (rc == 0) = true
  · rw [if_pos hrc] at hc
    cases hi : inCheck ot with
    | error m => rw [hi] at hc; simp at hc
    | ok p =>
      obtain ⟨blocked, q⟩ := p
      rw [hi] at hc
      simp only [Prod.mk.injEq, Except.ok.injEq] at hc
      obtain ⟨rfl, rfl⟩ := hc
      refine ⟨rfl, rfl, rfl, rfl, ?_⟩
      intro hfalse
      rw [hrc] at hfalse
      cases hfalse
  · rw [if_neg hrc] at hc
    have hrc' : (rc == 0) = false := by simpa using hrc
    cases hs : failNotifySlice ot with
    | error m => rw [hs] at hc; simp at hc
    | ok u =>
      rw [hs] at hc
      simp only [Prod.mk.injEq, Except.ok.injEq] at hc
      obtain ⟨rfl, rfl⟩ := hc
      exact ⟨rfl, rfl, rfl, by simp [hrc'], fun _ => ⟨rfl, rfl⟩⟩

/-- `completeStep` either leaves the history unchanged or appends
exactly one result. -/
lemma completeStep_shape {rc : Int} {ot : StrOrVal} {sid : Str}
    {hist h : List TaskResult} {r : Except PyExn TaskResult}
    (hc : completeStep rc ot sid hist = (h, r)) :
    h = hist ∨ ∃ t, h = hist ++ [t] := by
  unfold completeStep at hc
  by_cases hrc : (rc == 0) = true
  · rw [if_pos hrc] at hc
    cases hi : inCheck ot with
    | error m =>
      rw [hi] at hc
      exact Or.inl (congrArg Prod.fst hc.symm)
    | ok p =>
      obtain ⟨blocked, q⟩ := p
      rw [hi] at hc
      exact Or.inr ⟨_, (congrArg Prod.fst hc.symm)⟩
  · rw [if_neg hrc] at hc
    cases hs : failNotifySlice ot with
    | error m =>
      rw [hs] at hc
      exact Or.inr ⟨_, (congrArg Prod.fst hc.symm)⟩
    | ok u =>
      rw [hs] at hc
      exact Or.inr ⟨_, (congrArg Prod.fst hc.symm)⟩

/-- A timed-out subprocess makes the `try` body raise
`subprocess.TimeoutExpired` without touching the history. -/
lemma taskCore_timeout (parse : Str → Option PyJson) (sid : Str)
    (hist : List TaskResult) :
    taskCore parse ProcOutcome.timeoutExpired sid hist
      = (hist, Except.error PyExn.timeoutExpired) := rfl

/-- A failed launch makes the `try` body raise the launch exception
without touching the history. -/
lemma taskCore_launch (parse : Str → Option PyJson) (m sid : Str)
    (hist : List TaskResult) :
    taskCore parse (ProcOutcome.launchError m) sid hist
      = (hist, Except.error (PyExn.exc m)) := rfl

/-- Equation of `taskCore` on a completed subprocess. -/
lemma taskCore_completed (parse : Str → Option PyJson) (rc : Int)
    (stdout stderr sid : Str) (hist : List TaskResult) :
    taskCore parse (ProcOutcome.completed rc stdout stderr) sid hist =
      match parseStep parse stdout with
      | .error m => (hist, Except.error (PyExn.exc m))
      | .ok ot0 => completeStep rc (if rc ≠ 0 then pyOrStr stderr ot0 else ot0) sid hist := rfl

/-- Decomposition of a normal exit of the `try` body: the subprocess
completed, the result was appended, and `success`/`blocked` satisfy the
exit-code discipline. -/
lemma taskCore_ok {parse : Str → Option PyJson} {env : ProcOutcome} {sid : Str}
    {hist h : List TaskResult} {tr : TaskResult}
    (hc : taskCore parse env sid hist = (h, Except.ok tr)) :
    h = hist ++ [tr] ∧ tr.session_id = some sid ∧
    ∃ rc stdout stderr, env = ProcOutcome.completed rc stdout stderr ∧
      tr.success = ((rc == 0) && !tr.blocked) ∧
      ((rc == 0) = false → tr.blocked = false ∧ tr.blocker_question = []) := by
  cases env with
  | timeoutExpired => simp [taskCore] at hc
  | launchError m => simp [taskCore] at hc
  | completed rc stdout stderr =>
    rw [taskCore_completed] at hc
    cases hp : parseStep parse stdout with
    | error m => rw [hp] at hc; simp at hc
    | ok ot0 =>
      rw [hp] at hc
      obtain ⟨h1, h2, _, h4, h5⟩ := completeStep_ok hc
      exact ⟨h1, h2, rc, stdout, stderr, rfl, h4, h5⟩

/-- The `try` body appends at most one result to the history, whatever
happens. -/
lemma taskCore_shape {parse : Str → Option PyJson} {env : ProcOutcome} {sid : Str}
    {hist h : List TaskResult} {r : Except PyExn TaskResult}
    (hc : taskCore parse env sid hist = (h, r)) :
    h = hist ∨ ∃ t, h = hist ++ [t] := by
  cases env with
  | timeoutExpired =>
    rw [taskCore_timeout] at hc
    exact Or.inl (congrArg Prod.fst hc.symm)
  | launchError m =>
    rw [taskCore_launch] at hc
    exact Or.inl (congrArg Prod.fst hc.symm)
  | completed rc stdout stderr =>
    rw [taskCore_completed] at hc
    cases hp : parseStep parse stdout with
    | error m =>
      rw [hp] at hc
      exact Or.inl (congrArg Prod.fst hc.symm)
    | ok ot0 =>
      rw [hp] at hc
      exact completeStep_shape hc

/-- When the `try` body completes on a non-clean exit, the returned
result has the blocked fields clear. -/
lemma taskCore_not_clean {parse : Str → Option PyJson} {rc : Int}
    {stdout stderr sid : Str} {hist h : List TaskResult} {tr : TaskResult}
    (hrc : rc ≠ 0)
    (hc : taskCore parse (ProcOutcome.completed rc stdout stderr) sid hist
      = (h, Except.ok tr)) :
    tr.blocked = false ∧ tr.blocker_question = [] := by
  obtain ⟨_, _, rc', stdout', stderr', heq, _, h5⟩ := taskCore_ok hc
  obtain ⟨rfl, rfl, rfl⟩ : rc' = rc ∧ stdout' = stdout ∧ stderr' = stderr := by
    cases heq; exact ⟨rfl, rfl, rfl⟩
  exact h5 (by simpa using hrc)

/-- Exhaustive description of the handler stage: a normal result passes
through; a `TimeoutExpired` becomes the fixed timeout result; any other
exception becomes a failure result carrying its message.  In every case
the history component passes through unchanged. -/
lemma tryExceptWrapper_cases (sid : Str) (p : List TaskResult × Except PyExn TaskResult) :
    (∃ tr, p.2 = Except.ok tr ∧ tryExceptWrapper sid p = (p.1, Except.ok tr)) ∨
    (p.2 = Except.error PyExn.timeoutExpired ∧
      tryExceptWrapper sid p = (p.1, Except.ok (timeoutResult sid))) ∨
    (∃ m, p.2 = Except.error (PyExn.exc m) ∧
      tryExceptWrapper sid p = (p.1, Except.ok (excResult m sid))) := by
  obtain ⟨h0, r0⟩ := p
  cases r0 with
  | ok tr => exact Or.inl ⟨tr, rfl, rfl⟩
  | error e =>
    cases e with
    | timeoutExpired => exact Or.inr (Or.inl ⟨rfl, rfl⟩)
    | exc m => exact Or.inr (Or.inr ⟨m, rfl, rfl⟩)

/-- The handler stage never lets an exception out. -/
lemma tryExceptWrapper_total (sid : Str) (p : List TaskResult × Except PyExn TaskResult) :
    ∃ tr, (tryExceptWrapper sid p).2 = Except.ok tr := by
  rcases tryExceptWrapper_cases sid p with ⟨tr, _, he⟩ | ⟨_, he⟩ | ⟨m, _, he⟩ <;>
    exact ⟨_, by rw [he]⟩

/-- The handler stage never modifies the history component. -/
lemma tryExceptWrapper_fst (sid : Str) (p : List TaskResult × Except PyExn TaskResult) :
    (tryExceptWrapper sid p).1 = p.1 := by
  rcases tryExceptWrapper_cases sid p with ⟨tr, _, he⟩ | ⟨_, he⟩ | ⟨m, _, he⟩ <;>
    rw [he]

/-- Helper: upgrade an equation on the `Except` component of the `try`
body to an equation on the whole pair. -/
lemma taskCore_pair_of_snd {parse : Str → Option PyJson} {env : ProcOutcome}
    {sid : Str} {hist : List TaskResult} {r : Except PyExn TaskResult}
    (hok : (taskCore parse env sid hist).2 = r) :
    taskCore parse env sid hist = ((taskCore parse env sid hist).1, r) := by
  rw [← hok]

/-- Every result returned through the handler stage carries `some sid`
as its session id. -/
lemma entry_session {parse : Str → Option PyJson} {env : ProcOutcome}
    {sid : Str} {hist h : List TaskResult} {tr : TaskResult}
    (hr : tryExceptWrapper sid (taskCore parse env sid hist) = (h, Except.ok tr)) :
    tr.session_id = some sid := by
  rcases tryExceptWrapper_cases sid (taskCore parse env sid hist) with
    ⟨tr0, hok, he⟩ | ⟨hto, he⟩ | ⟨m, hex, he⟩ <;> rw [he] at hr <;>
    simp only [Prod.mk.injEq, Except.ok.injEq] at hr
  · obtain ⟨_, rfl⟩ := hr
    exact (taskCore_ok (taskCore_pair_of_snd hok)).2.1
  · obtain ⟨_, rfl⟩ := hr
    rfl
  · obtain ⟨_, rfl⟩ := hr
    rfl

/-- C3: neither `run_task` nor `resume_task` ever lets an exception
escape: for every configuration, permission-flag outcome, subprocess
oracle (covering completion, timeout and launch failure), JSON-decoder
oracle, session id, prompt/answer and history, the call returns a
`TaskResult`. -/
theorem dispatch_resume_never_raise (cfg : AgentConfig) (flags : List Str)
    (exec : List Str → ProcOutcome) (parse : Str → Option PyJson)
    (sid prompt answer : Str) (hist : List TaskResult) :
    (∃ tr, (run_task cfg flags exec parse sid prompt hist).2 = Except.ok tr) ∧
    (∃ tr, (resume_task flags exec parse sid answer hist).2 = Except.ok tr) :=
  ⟨tryExceptWrapper_total _ _, tryExceptWrapper_total _ _⟩

/-- C5: every result of a dispatch carries the session id generated for
that call, and every result of a resume carries exactly the session id
passed in — on all paths, timeout and launch failure included. -/
theorem result_session_id (cfg : AgentConfig) (flags : List Str)
    (exec : List Str → ProcOutcome) (parse : Str → Option PyJson)
    (sid prompt answer : Str) (hist : List TaskResult) :
    (∀ h tr, run_task cfg flags exec parse sid prompt hist = (h, Except.ok tr) →
      tr.session_id = some sid) ∧
    (∀ h tr, resume_task flags exec parse sid answer hist = (h, Except.ok tr) →
      tr.session_id = some sid) :=
  ⟨fun _ _ hr => entry_session hr, fun _ _ hr => entry_session hr⟩

/-- Witness for C5: a timed-out dispatch still returns a result whose
session id is the generated one. -/
theorem result_session_id_witness :
    (timeoutResult "s".data).session_id = some "s".data :=
  (result_session_id
      { name := "amber".data, system_prompt := "sp".data, project_root := ".".data }
      ["--permission-mode".data, "acceptEdits".data]
      (fun _ => ProcOutcome.timeoutExpired) (fun _ => none)
      "s".data "p".data "a".data []).1 [] (timeoutResult "s".data) rfl

/-- A non-cleanly-exited call never returns a blocked result. -/
lemma entry_not_clean {parse : Str → Option PyJson} {env : ProcOutcome}
    {sid : Str} {hist h : List TaskResult} {tr : TaskResult}
    (henv : env = ProcOutcome.timeoutExpired ∨
      (∃ m, env = ProcOutcome.launchError m) ∨
      (∃ rc stdout stderr, env = ProcOutcome.completed rc stdout stderr ∧ rc ≠ 0))
    (hr : tryExceptWrapper sid (taskCore parse env sid hist) = (h, Except.ok tr)) :
    tr.blocked = false ∧ tr.blocker_question = [] := by
  rcases tryExceptWrapper_cases sid (taskCore parse env sid hist) with
    ⟨tr0, hok, he⟩ | ⟨hto, he⟩ | ⟨m, hex, he⟩ <;> rw [he] at hr <;>
    simp only [Prod.mk.injEq, Except.ok.injEq] at hr
  · obtain ⟨_, rfl⟩ := hr
    have hpair := taskCore_pair_of_snd hok
    rcases henv with rfl | ⟨m, rfl⟩ | ⟨rc, stdout, stderr, rfl, hrc⟩
    · rw [taskCore_timeout] at hpair
      simp at hpair
    · rw [taskCore_launch] at hpair
      simp at hpair
    · exact taskCore_not_clean hrc hpair
  · obtain ⟨_, rfl⟩ := hr
    exact ⟨rfl, rfl⟩
  · obtain ⟨_, rfl⟩ := hr
    exact ⟨rfl, rfl⟩

/-- C10: a dispatch or resume call whose subprocess did not exit cleanly
(non-zero exit code, timeout, or launch failure) never returns a blocked
result: its `TaskResult` always has `blocked = false` and an empty
blocker question, even if the sentinel appears in the captured output. -/
theorem not_clean_never_blocked :
    (∀ cfg flags exec parse sid prompt hist h tr,
      (exec (dispatchCmd cfg flags sid prompt) = ProcOutcome.timeoutExpired ∨
        (∃ m, exec (dispatchCmd cfg flags sid prompt) = ProcOutcome.launchError m) ∨
        (∃ rc stdout stderr,
          exec (dispatchCmd cfg flags sid prompt) = ProcOutcome.completed rc stdout stderr ∧
          rc ≠ 0)) →
      run_task cfg flags exec parse sid prompt hist = (h, Except.ok tr) →
      tr.blocked = false ∧ tr.blocker_question = []) ∧
    (∀ flags exec parse sid answer hist h tr,
      (exec (resumeCmd flags sid answer) = ProcOutcome.timeoutExpired ∨
        (∃ m, exec (resumeCmd flags sid answer) = ProcOutcome.launchError m) ∨
        (∃ rc stdout stderr,
          exec (resumeCmd flags sid answer) = ProcOutcome.completed rc stdout stderr ∧
          rc ≠ 0)) →
      resume_task flags exec parse sid answer hist = (h, Except.ok tr) →
      tr.blocked = false ∧ tr.blocker_question = []) :=
  ⟨fun _ _ _ _ _ _ _ _ _ henv hr => entry_not_clean henv hr,
   fun _ _ _ _ _ _ _ _ henv hr => entry_not_clean henv hr⟩

/-- The result a failed (exit code 1) dispatch returns even though the
sentinel marker appears in its stdout: not blocked. -/
def failedMarkerResult : TaskResult :=
  { success := false, output := .str "AGENT_BLOCKED: x".data, files_changed := [],
    session_id := some "s".data, blocked := false, blocker_question := [] }

/-- Witness for C10: a dispatch whose subprocess exits with code 1 and
prints the sentinel marker still yields `blocked = false` and an empty
question. -/
theorem not_clean_never_blocked_witness :
    failedMarkerResult.blocked = false ∧ failedMarkerResult.blocker_question = [] :=
  not_clean_never_blocked.1
    { name := "amber".data, system_prompt := "sp".data, project_root := ".".data }
    ["--permission-mode".data, "acceptEdits".data]
    (fun _ => ProcOutcome.completed 1 "AGENT_BLOCKED: x".data []) (fun _ => none)
    "s".data "p".data [] [failedMarkerResult] failedMarkerResult
    (Or.inr (Or.inr ⟨1, "AGENT_BLOCKED: x".data, [], rfl, by decide⟩)) rfl

/-- Success discipline of a completed-subprocess call, at the handler
stage: a blocked result is never successful, and success holds exactly
when the exit was clean, the result was not blocked, and the output
processing ran to completion without raising. -/
lemma entry_success_iff {parse : Str → Option PyJson} {rc : Int}
    {stdout stderr sid : Str} {hist h : List TaskResult} {tr : TaskResult}
    (hr : tryExceptWrapper sid
      (taskCore parse (ProcOutcome.completed rc stdout stderr) sid hist)
      = (h, Except.ok tr)) :
    (tr.blocked = true → tr.success = false) ∧
    (tr.success = true ↔ rc = 0 ∧ tr.blocked = false ∧
      (taskCore parse (ProcOutcome.completed rc stdout stderr) sid hist).2
        = Except.ok tr) := by
  rcases tryExceptWrapper_cases sid
      (taskCore parse (ProcOutcome.completed rc stdout stderr) sid hist) with
    ⟨tr0, hok, he⟩ | ⟨hto, he⟩ | ⟨m, hex, he⟩ <;> rw [he] at hr <;>
    simp only [Prod.mk.injEq, Except.ok.injEq] at hr
  · obtain ⟨_, rfl⟩ := hr
    obtain ⟨_, _, rc', so', se', heq, hsucc, _⟩ := taskCore_ok (taskCore_pair_of_snd hok)
    cases heq
    constructor
    · intro hb
      rw [hsucc, hb]
      simp
    · rw [hsucc]
      constructor
      · intro hs
        have hs' : rc = 0 ∧ tr0.blocked = false := by simpa using hs
        exact ⟨hs'.1, hs'.2, hok⟩
      · rintro ⟨rfl, hb, _⟩
        rw [hb]
        simp
  · obtain ⟨_, rfl⟩ := hr
    refine ⟨fun _ => rfl, ?_⟩
    constructor
    · intro hs
      cases hs
    · rintro ⟨_, _, hok'⟩
      rw [hto] at hok'
      cases hok'
  · obtain ⟨_, rfl⟩ := hr
    refine ⟨fun _ => rfl, ?_⟩
    constructor
    · intro hs
      cases hs
    · rintro ⟨_, _, hok'⟩
      rw [hex] at hok'
      cases hok'

/-- C1 (amended): for a dispatch or resume call whose subprocess
completed, a blocked result always has `success = false`, and
`success = true` holds exactly when the exit code was `0`, the result
was not classified as blocked, *and* the output processing of the `try`
body ran to completion without raising (stdout that parses to a
non-object JSON value makes it raise, giving `success = false` even on
a clean exit). -/
theorem success_iff_clean_not_blocked :
    (∀ cfg flags exec parse sid prompt hist rc stdout stderr h tr,
      exec (dispatchCmd cfg flags sid prompt) = ProcOutcome.completed rc stdout stderr →
      run_task cfg flags exec parse sid prompt hist = (h, Except.ok tr) →
      (tr.blocked = true → tr.success = false) ∧
      (tr.success = true ↔ rc = 0 ∧ tr.blocked = false ∧
        (taskCore parse (ProcOutcome.completed rc stdout stderr) sid hist).2
          = Except.ok tr)) ∧
    (∀ flags exec parse sid answer hist rc stdout stderr h tr,
      exec (resumeCmd flags sid answer) = ProcOutcome.completed rc stdout stderr →
      resume_task flags exec parse sid answer hist = (h, Except.ok tr) →
      (tr.blocked = true → tr.success = false) ∧
      (tr.success = true ↔ rc = 0 ∧ tr.blocked = false ∧
        (taskCore parse (ProcOutcome.completed rc stdout stderr) sid hist).2
          = Except.ok tr)) := by
  constructor
  · intro cfg flags exec parse sid prompt hist rc stdout stderr h tr hexec hr
    unfold run_task at hr
    rw [hexec] at hr
    exact entry_success_iff hr
  · intro flags exec parse sid answer hist rc stdout stderr h tr hexec hr
    unfold resume_task at hr
    rw [hexec] at hr
    exact entry_success_iff hr

/-- JSON-decoder oracle mapping the stdout `"2"` to the JSON number 2
(what `json.loads` returns on it). -/
def parseNum : Str → Option PyJson :=
  fun s => if s = "2".data then some (.num 2) else none

/-- Counterexample for C1 as frozen: a dispatch whose subprocess exits
cleanly (code 0) with stdout `"2"` — valid JSON that is not an object —
returns a result with `success = false` although the exit code indicated
success and nothing was classified as blocked (`.get` on the parsed
`int` raises `AttributeError`, caught by the generic handler). -/
theorem success_iff_counterexample :
    run_task { name := "amber".data, system_prompt := "sp".data, project_root := ".".data }
      ["--permission-mode".data, "acceptEdits".data]
      (fun _ => ProcOutcome.completed 0 "2".data []) parseNum "s".data "p".data []
      = ([], Except.ok (excResult (attrGetMsg "int".data) "s".data)) ∧
    (excResult (attrGetMsg "int".data) "s".data).success = false ∧
    (excResult (attrGetMsg "int".data) "s".data).blocked = false :=
  ⟨rfl, rfl, rfl⟩

/-- The result of a clean dispatch used as the C1 witness. -/
def cleanResult : TaskResult :=
  { success := true, output := .str "hi".data, files_changed := [],
    session_id := some "s".data, blocked := false, blocker_question := [] }

/-- Witness for C1 (amended), at a clean, unblocked dispatch. -/
theorem success_iff_clean_not_blocked_witness :
    (cleanResult.blocked = true → cleanResult.success = false) ∧
    (cleanResult.success = true ↔ (0 : Int) = 0 ∧ cleanResult.blocked = false ∧
      (taskCore (fun _ => none) (ProcOutcome.completed 0 "hi".data []) "s".data []).2
        = Except.ok cleanResult) :=
  success_iff_clean_not_blocked.1
    { name := "amber".data, system_prompt := "sp".data, project_root := ".".data }
    ["--permission-mode".data, "acceptEdits".data]
    (fun _ => ProcOutcome.completed 0 "hi".data []) (fun _ => none)
    "s".data "p".data [] 0 "hi".data [] [cleanResult] cleanResult rfl rfl

/-- History discipline at the handler stage: at most one append per
call; the normal path appends exactly the returned result; the timeout
and launch-failure paths append nothing. -/
lemma entry_hist {parse : Str → Option PyJson} {env : ProcOutcome} {sid : Str}
    {hist : List TaskResult} :
    ((tryExceptWrapper sid (taskCore parse env sid hist)).1 = hist ∨
      ∃ t, (tryExceptWrapper sid (taskCore parse env sid hist)).1 = hist ++ [t]) ∧
    (∀ h0 tr, taskCore parse env sid hist = (h0, Except.ok tr) →
      tryExceptWrapper sid (taskCore parse env sid hist)
        = (hist ++ [tr], Except.ok tr)) ∧
    (env = ProcOutcome.timeoutExpired →
      tryExceptWrapper sid (taskCore parse env sid hist)
        = (hist, Except.ok (timeoutResult sid))) ∧
    (∀ m, env = ProcOutcome.launchError m →
      tryExceptWrapper sid (taskCore parse env sid hist)
        = (hist, Except.ok (excResult m sid))) := by
  refine ⟨?_, ?_, ?_, ?_⟩
  · rcases hc : taskCore parse env sid hist with ⟨h0, r0⟩
    have hshape := taskCore_shape hc
    rw [tryExceptWrapper_fst]
    exact hshape
  · intro h0 tr hc
    have h1 := (taskCore_ok hc).1
    rw [hc, h1]
    rfl
  · intro henv
    subst henv
    rw [taskCore_timeout]
    rfl
  · intro m henv
    subst henv
    rw [taskCore_launch]
    rfl

/-- C4 (amended): each dispatch/resume call appends at most one result
to `task_history`; a call whose `try` body runs to completion appends
exactly the result it returns; calls ending in the timeout or
launch-failure handler return their result *without* appending it. -/
theorem history_append_discipline :
    (∀ cfg flags exec parse sid prompt hist,
      ((run_task cfg flags exec parse sid prompt hist).1 = hist ∨
        ∃ t, (run_task cfg flags exec parse sid prompt hist).1 = hist ++ [t]) ∧
      (∀ h0 tr,
        taskCore parse (exec (dispatchCmd cfg flags sid prompt)) sid hist
          = (h0, Except.ok tr) →
        run_task cfg flags exec parse sid prompt hist
          = (hist ++ [tr], Except.ok tr)) ∧
      (exec (dispatchCmd cfg flags sid prompt) = ProcOutcome.timeoutExpired →
        run_task cfg flags exec parse sid prompt hist
          = (hist, Except.ok (timeoutResult sid))) ∧
      (∀ m, exec (dispatchCmd cfg flags sid prompt) = ProcOutcome.launchError m →
        run_task cfg flags exec parse sid prompt hist
          = (hist, Except.ok (excResult m sid)))) ∧
    (∀ flags exec parse sid answer hist,
      ((resume_task flags exec parse sid answer hist).1 = hist ∨
        ∃ t, (resume_task flags exec parse sid answer hist).1 = hist ++ [t]) ∧
      (∀ h0 tr,
        taskCore parse (exec (resumeCmd flags sid answer)) sid hist
          = (h0, Except.ok tr) →
        resume_task flags exec parse sid answer hist
          = (hist ++ [tr], Except.ok tr)) ∧
      (exec (resumeCmd flags sid answer) = ProcOutcome.timeoutExpired →
        resume_task flags exec parse sid answer hist
          = (hist, Except.ok (timeoutResult sid))) ∧
      (∀ m, exec (resumeCmd flags sid answer) = ProcOutcome.launchError m →
        resume_task flags exec parse sid answer hist
          = (hist, Except.ok (excResult m sid)))) :=
  ⟨fun _ _ _ _ _ _ _ => entry_hist, fun _ _ _ _ _ _ => entry_hist⟩

/-- Counterexample for C4 as frozen: a timed-out dispatch constructs and
returns a `TaskResult`, yet the history stays empty — the returned
result was never appended. -/
theorem history_append_counterexample :
    run_task { name := "amber".data, system_prompt := "sp".data, project_root := ".".data }
      ["--permission-mode".data, "acceptEdits".data]
      (fun _ => ProcOutcome.timeoutExpired) (fun _ => none) "s".data "p".data []
      = ([], Except.ok (timeoutResult "s".data)) ∧
    timeoutResult "s".data ∉ ([] : List TaskResult) :=
  ⟨rfl, List.not_mem_nil _⟩

/-- Witness for C4 (amended): a clean dispatch appends exactly the
result it returns. -/
theorem history_append_discipline_witness :
    run_task { name := "amber".data, system_prompt := "sp".data, project_root := ".".data }
      ["--permission-mode".data, "acceptEdits".data]
      (fun _ => ProcOutcome.completed 0 "hi".data []) (fun _ => none)
      "s".data "p".data [] = ([] ++ [cleanResult], Except.ok cleanResult) :=
  ((history_append_discipline.1
      { name := "amber".data, system_prompt := "sp".data, project_root := ".".data }
      ["--permission-mode".data, "acceptEdits".data]
      (fun _ => ProcOutcome.completed 0 "hi".data []) (fun _ => none)
      "s".data "p".data []).2.1 [cleanResult] cleanResult rfl)

/-- The result a clean-exit call returns when the raw stdout is used as
the output and classified normally. -/
def degradedResult (stdout sid : Str) : TaskResult :=
  { success := !(classifyBlocked stdout).1, output := .str stdout,
    files_changed := [], session_id := some sid,
    blocked := (classifyBlocked stdout).1,
    blocker_question := (classifyBlocked stdout).2 }

/-- A clean exit with a string output classifies normally and appends
the degraded/normal result. -/
lemma completeStep_clean_str (stdout sid : Str) (hist : List TaskResult) :
    completeStep 0 (StrOrVal.str stdout) sid hist
      = (hist ++ [degradedResult stdout sid],
         Except.ok (degradedResult stdout sid)) := by
  cases hcb : classifyBlocked stdout with
  | mk b q =>
    simp [completeStep, inCheck, hcb, degradedResult]

/-- C6 (amended): stdout that fails JSON parsing (or parses to an
object without a `result` field) degrades to raw stdout and, on a clean
exit, proceeds with the normal success/blocked classification; but
stdout that parses to a JSON value that is *not* an object makes the
call return a failed `TaskResult` carrying the `AttributeError` text
instead of degrading. -/
theorem parse_degradation :
    (∀ parse stdout, stdout ≠ [] → parse stdout = none →
      parseStep parse stdout = Except.ok (StrOrVal.str stdout)) ∧
    (∀ parse stdout fields, stdout ≠ [] →
      parse stdout = some (PyJson.obj fields) →
      lookupField fields resultKey = none →
      parseStep parse stdout = Except.ok (StrOrVal.str stdout)) ∧
    (∀ parse sid hist stdout stderr, stdout ≠ [] → parse stdout = none →
      taskCore parse (ProcOutcome.completed 0 stdout stderr) sid hist
        = (hist ++ [degradedResult stdout sid],
           Except.ok (degradedResult stdout sid))) ∧
    (∀ cfg flags exec parse sid prompt hist rc stdout stderr v,
      exec (dispatchCmd cfg flags sid prompt) = ProcOutcome.completed rc stdout stderr →
      stdout ≠ [] → parse stdout = some v → (∀ fields, v ≠ PyJson.obj fields) →
      run_task cfg flags exec parse sid prompt hist
        = (hist, Except.ok (excResult (attrGetMsg (pyTypeName v)) sid))) ∧
    (∀ flags exec parse sid answer hist rc stdout stderr v,
      exec (resumeCmd flags sid answer) = ProcOutcome.completed rc stdout stderr →
      stdout ≠ [] → parse stdout = some v → (∀ fields, v ≠ PyJson.obj fields) →
      resume_task flags exec parse sid answer hist
        = (hist, Except.ok (excResult (attrGetMsg (pyTypeName v)) sid))) := by
  have hraw : ∀ (parse : Str → Option PyJson) (stdout : Str), stdout ≠ [] →
      parse stdout = none → parseStep parse stdout = Except.ok (StrOrVal.str stdout) := by
    intro parse stdout hne hp
    unfold parseStep
    rw [if_neg hne, hp]
  have herr : ∀ (parse : Str → Option PyJson) (stdout : Str) (v : PyJson),
      stdout ≠ [] → parse stdout = some v → (∀ fields, v ≠ PyJson.obj fields) →
      parseStep parse stdout = Except.error (attrGetMsg (pyTypeName v)) := by
    intro parse stdout v hne hp hnobj
    unfold parseStep
    rw [if_neg hne, hp]
    cases v with
    | obj fields => exact absurd rfl (hnobj fields)
    | arr xs => rfl
    | str s => rfl
    | num n => rfl
    | bool b => rfl
    | null => rfl
  refine ⟨hraw, ?_, ?_, ?_, ?_⟩
  · intro parse stdout fields hne hp hlook
    unfold parseStep
    rw [if_neg hne, hp]
    show (match lookupField fields resultKey with
      | some (PyJson.str s) => Except.ok (StrOrVal.str s)
      | some v => Except.ok (StrOrVal.val v)
      | none => Except.ok (StrOrVal.str stdout)) = Except.ok (StrOrVal.str stdout)
    rw [hlook]
  · intro parse sid hist stdout stderr hne hp
    rw [taskCore_completed, hraw parse stdout hne hp]
    exact completeStep_clean_str stdout sid hist
  · intro cfg flags exec parse sid prompt hist rc stdout stderr v hexec hne hp hnobj
    unfold run_task
    rw [hexec, taskCore_completed, herr parse stdout v hne hp hnobj]
    rfl
  · intro flags exec parse sid answer hist rc stdout stderr v hexec hne hp hnobj
    unfold resume_task
    rw [hexec, taskCore_completed, herr parse stdout v hne hp hnobj]
    rfl

/-- JSON-decoder oracle mapping the stdout `"[1]"` to the JSON array
`[1]` (what `json.loads` returns on it). -/
def parseArr : Str → Option PyJson :=
  fun s => if s = "[1]".data then some (.arr [.num 1]) else none

/-- Counterexample for C6 as frozen: stdout `"[1]"` is valid JSON but
not an object; the dispatch does *not* degrade to raw stdout — it
returns a failed result whose output is the `AttributeError` text, not
the stdout. -/
theorem parse_degradation_counterexample :
    run_task { name := "amber".data, system_prompt := "sp".data, project_root := ".".data }
      ["--permission-mode".data, "acceptEdits".data]
      (fun _ => ProcOutcome.completed 0 "[1]".data []) parseArr "s".data "p".data []
      = ([], Except.ok (excResult (attrGetMsg "list".data) "s".data)) ∧
    (excResult (attrGetMsg "list".data) "s".data).success = false ∧
    attrGetMsg "list".data ≠ "[1]".data :=
  ⟨rfl, rfl, by decide⟩

/-- Witness for C6 (amended): unparseable stdout degrades to the raw
text and classifies normally on a clean exit. -/
theorem parse_degradation_witness :
    parseStep (fun _ => none) "oops".data = Except.ok (StrOrVal.str "oops".data) ∧
    taskCore (fun _ => none) (ProcOutcome.completed 0 "oops".data []) "s".data []
      = ([degradedResult "oops".data "s".data],
         Except.ok (degradedResult "oops".data "s".data)) :=
  ⟨parse_degradation.1 (fun _ => none) "oops".data (by decide) rfl,
   parse_degradation.2.2.1 (fun _ => none) "s".data [] "oops".data [] (by decide) rfl⟩

/-- C7 (amended): every fresh dispatch command carries, right after the
`--system-prompt` flag, the system instruction with the fixed
block-detection clause appended; the resume command contains no
`--system-prompt` of its own (only its flags/answer could coincide with
that string). -/
theorem system_prompt_dispatch_only :
    (∀ cfg flags sid prompt,
      (dispatchCmd cfg flags sid prompt).drop 6 =
        "--system-prompt".data :: (cfg.system_prompt ++ BLOCKED_INSTRUCTION) ::
          (flags ++ [prompt])) ∧
    (∀ flags sid answer, "--system-prompt".data ∉ flags →
      sid ≠ "--system-prompt".data → answer ≠ "--system-prompt".data →
      "--system-prompt".data ∉ resumeCmd flags sid answer) := by
  constructor
  · intro cfg flags sid prompt
    rfl
  · intro flags sid answer hf hs ha hmem
    unfold resumeCmd at hmem
    simp only [List.append_assoc, List.cons_append, List.nil_append, List.mem_cons,
      List.mem_append, List.mem_singleton] at hmem
    rcases hmem with h | h | h | h | h | h | h | h
    · exact absurd h (by decide)
    · exact absurd h (by decide)
    · exact absurd h (by decide)
    · exact hs h.symm
    · exact absurd h (by decide)
    · exact absurd h (by decide)
    · exact hf h
    · rcases h with h | h
      · exact ha h.symm
      · exact absurd h (List.not_mem_nil _)

set_option maxRecDepth 8192 in
/-- Counterexample for C7 as frozen: a concrete resume invocation whose
command contains neither the `--system-prompt` flag nor any element
containing the block-detection clause. -/
theorem system_prompt_resume_counterexample :
    ("--system-prompt".data : Str)
      ∉ resumeCmd ["--permission-mode".data, "acceptEdits".data] "abc".data "ok".data ∧
    (resumeCmd ["--permission-mode".data, "acceptEdits".data] "abc".data "ok".data).all
      (fun el => !containsSub el BLOCKED_INSTRUCTION) = true :=
  ⟨by decide, by decide⟩

/-- Witness for C7 (amended): the concrete resume command carries no
`--system-prompt`. -/
theorem system_prompt_dispatch_only_witness :
    ("--system-prompt".data : Str) ∉ resumeCmd ["-f".data] "sid".data "ans".data :=
  system_prompt_dispatch_only.2 ["-f".data] "sid".data "ans".data
    (by decide) (by decide) (by decide)

/-- One `request_approval` call appends exactly the created record and
rewrites the file to the serialization of the whole new pending list. -/
lemma request_approval_eq (pending : List ApprovalRequest) (c : ApprovalCall) :
    request_approval pending c.now c.description c.details c.options
      = (mkApproval c, pending ++ [mkApproval c],
         (pending ++ [mkApproval c]).map approvalRecordOf) := by
  cases hopt : c.options with
  | none => simp [request_approval, mkApproval, hopt]
  | some o => simp [request_approval, mkApproval, hopt]

/-- Generalized induction for a sequence of `request_approval` calls. -/
lemma runApprovalsAux_spec (calls : List ApprovalCall) :
    ∀ (pending : List ApprovalRequest) (file : Option (List ApprovalRecord)),
      (runApprovalsAux pending file calls).1 = pending ++ calls.map mkApproval ∧
      (runApprovalsAux pending file calls).2 =
        (if calls.isEmpty then file
         else some ((pending ++ calls.map mkApproval).map approvalRecordOf)) := by
  induction calls with
  | nil => intro pending file; simp [runApprovalsAux]
  | cons c rest ih =>
    intro pending file
    rw [runApprovalsAux, request_approval_eq]
    obtain ⟨ih1, ih2⟩ := ih (pending ++ [mkApproval c])
      (some ((pending ++ [mkApproval c]).map approvalRecordOf))
    constructor
    · rw [ih1]
      simp
    · rw [ih2]
      by_cases hrest : rest = []
      · subst hrest
        simp
      · rw [if_neg (by simpa using hrest), if_neg (by simp)]
        simp

/-- C8: after `N` single-threaded `request_approval` calls on one fresh
agent instance, the in-memory pending list holds exactly the `N`
created records in creation order; each call appends its record and
rewrites the single approvals file to exactly the serialization
(task id, description, details, options, ISO-8601 `created_at`) of the
in-memory list; a call without options gets
`["Approve", "Reject", "Modify"]`. -/
theorem approval_gate_spec :
    (∀ pending c, request_approval pending c.now c.description c.details c.options
      = (mkApproval c, pending ++ [mkApproval c],
         (pending ++ [mkApproval c]).map approvalRecordOf)) ∧
    (∀ calls, (runApprovals calls).1 = calls.map mkApproval) ∧
    (∀ calls, calls ≠ [] →
      (runApprovals calls).2 = some ((calls.map mkApproval).map approvalRecordOf)) ∧
    (∀ now description details,
      (mkApproval ⟨now, description, details, none⟩).options
        = ["Approve".data, "Reject".data, "Modify".data]) ∧
    (∀ c, (mkApproval c).task_id = "approval_".data ++ c.now.strftimeTag ∧
      (mkApproval c).created_at = c.now ∧
      approvalRecordOf (mkApproval c) =
        { task_id := "approval_".data ++ c.now.strftimeTag,
          description := c.description, details := c.details,
          options := (mkApproval c).options, created_at := c.now.isoformat }) := by
  refine ⟨request_approval_eq, ?_, ?_, ?_, ?_⟩
  · intro calls
    simpa using (runApprovalsAux_spec calls [] none).1
  · intro calls hne
    have h := (runApprovalsAux_spec calls [] none).2
    rw [if_neg (by simpa using hne)] at h
    simpa using h
  · intro now description details
    rfl
  · intro c
    exact ⟨rfl, rfl, rfl⟩

/-- Two concrete timestamps for the C8 witness. -/
def dt1 : PyDateTime :=
  { strftimeTag := "20260101_120000".data, isoformat := "2026-01-01T12:00:00".data }

/-- Second concrete timestamp for the C8 witness. -/
def dt2 : PyDateTime :=
  { strftimeTag := "20260101_120001".data, isoformat := "2026-01-01T12:00:01".data }

/-- First call of the C8 witness: no options supplied. -/
def callEx1 : ApprovalCall :=
  { now := dt1, description := "deploy".data, details := "to prod".data, options := none }

/-- Second call of the C8 witness: explicit options. -/
def callEx2 : ApprovalCall :=
  { now := dt2, description := "delete".data, details := "old data".data,
    options := some ["Yes".data, "No".data] }

/-- The two calls of the C8 witness. -/
def callsEx : List ApprovalCall := [callEx1, callEx2]

/-- Witness for C8: after the two concrete calls the pending list is the
two created records in order and the file is their serialization; the
first (option-less) record got the default options. -/
theorem approval_gate_spec_witness :
    (runApprovals callsEx).1 = callsEx.map mkApproval ∧
    (runApprovals callsEx).2 = some ((callsEx.map mkApproval).map approvalRecordOf) ∧
    (mkApproval callEx1).options
      = ["Approve".data, "Reject".data, "Modify".data] :=
  ⟨approval_gate_spec.2.1 callsEx,
   approval_gate_spec.2.2.1 callsEx (by simp [callsEx]),
   approval_gate_spec.2.2.2.1 dt1 "deploy".data "to prod".data⟩

/-- C9: the permission-flag resolution is total (it is a function); on
`ImportError` it returns exactly the conservative default, and when the
module is available the supervisor profile is selected exactly when the
configured name equals the designated supervisor name `"Shelly"`
case-insensitively. -/
theorem permission_flags_spec :
    (∀ (P : Type) (pathName : Str → Str) (cfg : AgentConfig),
      _get_permission_flags (P := P) none pathName cfg
        = ["--permission-mode".data, "acceptEdits".data]) ∧
    (∀ (P : Type) (m : PermMod P) (pathName : Str → Str) (cfg : AgentConfig),
      (pyLower cfg.name = pyLower "Shelly".data →
        _get_permission_flags (some m) pathName cfg
          = m.build_cli_flags (m.get_supervisor_profile
              (if cfg.project_root ≠ ".".data
               then some (pathName cfg.project_root) else none))) ∧
      (pyLower cfg.name ≠ pyLower "Shelly".data →
        _get_permission_flags (some m) pathName cfg
          = m.build_cli_flags (m.get_worker_profile
              (if cfg.project_root ≠ ".".data
               then some (pathName cfg.project_root) else none)))) := by
  have hsh : pyLower "Shelly".data = "shelly".data := by decide
  constructor
  · intro P pathName cfg
    rfl
  · intro P m pathName cfg
    constructor
    · intro hsup
      rw [hsh] at hsup
      simp [_get_permission_flags, hsup]
    · intro hwork
      rw [hsh] at hwork
      have : (pyLower cfg.name == "shelly".data) = false :=
        beq_eq_false_iff_ne.mpr hwork
      simp [_get_permission_flags, this]

/-- A concrete policy module over profile type `Bool` for the C9
witness. -/
def mEx : PermMod Bool :=
  { get_supervisor_profile := fun _ => true,
    get_worker_profile := fun _ => false,
    build_cli_flags := fun b => if b then ["sup".data] else ["work".data] }

/-- Witness for C9: with the module available, the mixed-case name
`"SHELLY"` selects the supervisor profile. -/
theorem permission_flags_spec_witness :
    _get_permission_flags (some mEx) (fun s => s)
      { name := "SHELLY".data, system_prompt := [], project_root := ".".data }
      = mEx.build_cli_flags (mEx.get_supervisor_profile none) := by
  have h := (permission_flags_spec.2 Bool mEx (fun s => s)
    { name := "SHELLY".data, system_prompt := [], project_root := ".".data }).1 (by decide)
  simpa using h

end EntityAgents
